import Mathlib

/-!
Shallow embedding of okta-awscli (`src/oktaawscli/okta_awscli.py`).

The single source file under `src/` is the driver `okta_awscli.py`; the
collaborator modules `aws_auth.py`, `okta_auth.py` and `okta_auth_config.py`
are not part of the sources, so the observable behaviour of their methods is
represented either as an oracle result supplied through `Env` (network and
interactive results) or, where a claim depends on the collaborator's own
logic, as a definition modelled from the spec (marked `Modelled from the
spec:` in its doc comment).

Runs are embedded as pure functions from the argument record and the oracle
environment to a pair `(trace, result)`: the trace is the ordered list of
observable effects (network calls, disk writes, prompts, log lines) and the
result is `Except RunErr Unit`, where an uncaught Python exception becomes
`Except.error`.
-/

namespace OktaAwsCli

/-- A kernel-evaluable decidability witness for the lexicographic order on
strings (the library instance `String.decidableLE` is byte-based and does not
reduce in the kernel). Propositionally it decides exactly `a ≤ b`. -/
def strLeDec : DecidableRel (fun a b : String => a ≤ b) :=
fun a b => decidable_of_iff (a.toList ≤ b.toList) String.le_iff_toList_le.symm

/-- Python `sorted` on a list of strings: stable sort by lexicographic `≤`.
`okta_awscli.py` line 15 applies it to the configured Okta profile names. -/
def sortedStrings (xs : List String) : List String :=
@List.insertionSort String (fun a b => a ≤ b) strLeDec xs

/-- Python list indexing `xs[i]` for an `int` index `i`: a nonnegative index
must be below the length, a negative index `i` selects `xs[len + i]` when
`-len ≤ i`, and anything else raises `IndexError` (here: `none`). -/
def pyIndex {α : Type} (xs : List α) (i : Int) : Option α :=
if 0 ≤ i then
  (if i < (xs.length : Int) then xs.get? i.toNat else none)
else
  (if -(xs.length : Int) ≤ i then xs.get? ((xs.length : Int) + i).toNat else none)

/-- The STS role-assumption response (`aws_auth.get_sts_token` result), the
four fields read by `get_credentials` at lines 52–55. The expiration is the
provider-reported absolute timestamp, kept opaque. -/
structure StsToken where
  accessKeyId : String
  secretAccessKey : String
  sessionToken : String
  expiration : String
deriving DecidableEq, Repr

/-- The cached credential record that the validity check inspects: whether the
stored token is syntactically well-formed, and its absolute expiration
timestamp. -/
structure CachedCred where
  wellFormed : Bool
  expiration : Int
deriving DecidableEq, Repr

/-- Modelled from the spec: `AwsAuth.check_sts_token` (the file `aws_auth.py`
is not under `src/`). Per §4.3, the check succeeds iff a CredentialProfile
record exists, its token is syntactically well-formed, and
`now < expiration - safety_margin`; it performs no network call. -/
def check_sts_token (cached : Option CachedCred) (now safety_margin : Int) : Bool :=
match cached with
| none => false
| some c => c.wellFormed && decide (now < c.expiration - safety_margin)

/-- The errors an embedded run can end with (uncaught Python exceptions). -/
inductive RunErr where
  | authError
  | roleError
  | stsError
  | valueError
  | indexError
deriving DecidableEq, Repr

/-- The failure modes of loading the cookie jar (`LWPCookieJar.load` at line
169): `http.cookiejar.LoadError` for a corrupt file, `OSError` for a missing
or unreadable one. Both carry the rendered message. -/
inductive CookieErr where
  | loadError (msg : String)
  | osError (msg : String)
deriving DecidableEq, Repr

/-- Message rendering for a cookie-jar load failure. -/
def CookieErr.msg : CookieErr → String
  | .loadError m => m
  | .osError m => m

/-- Observable effects of a run, in program order. Network effects are
`oktaGetAssertion` (the whole IdP authentication up to the assertion fetch)
and `stsAssumeRole`; everything else is console, log or local-disk activity. -/
inductive Event where
  | checkStsToken
  | printLine (s : String)
  | logDebug (msg : String)
  | logInfo (msg : String)
  | logWarning (msg : String)
  | cookieLoad (file : String)
  | cookieSave (file : String)
  | oktaGetAssertion
  | chooseAwsRole
  | writeRoleToProfile (oktaProfile roleArn : String)
  | stsAssumeRole (roleArn principalArn assertion : String) (duration : Int)
  | writeStsToProfile (accessKeyId secretAccessKey expiration sessionToken : String)
  | writeCacheFile (path content : String)
deriving DecidableEq, Repr

/-- Events that exist only inside the `get_credentials` flow: IdP
authentication, role resolution, role persistence, the STS call, and the two
credential destinations. -/
def Event.isCredentialFlow : Event → Bool
  | .oktaGetAssertion => true
  | .chooseAwsRole => true
  | .writeRoleToProfile _ _ => true
  | .stsAssumeRole _ _ _ _ => true
  | .writeStsToProfile _ _ _ _ => true
  | .writeCacheFile _ _ => true
  | _ => false

/-- Events that touch the network. -/
def Event.isNetwork : Event → Bool
  | .oktaGetAssertion => true
  | .stsAssumeRole _ _ _ _ => true
  | _ => false

/-- Events that touch the session store (cookie jar file). -/
def Event.isCookieStore : Event → Bool
  | .cookieLoad _ => true
  | .cookieSave _ => true
  | _ => false

/-- Console-output events. -/
def Event.isPrintLine : Event → Bool
  | .printLine _ => true
  | _ => false

/-- Credential-destination events: the named-profile write. -/
def Event.isWriteStsToProfile : Event → Bool
  | .writeStsToProfile _ _ _ _ => true
  | _ => false

/-- Credential-destination events: the cache-file write. -/
def Event.isWriteCacheFile : Event → Bool
  | .writeCacheFile _ _ => true
  | _ => false

/-- The oracle environment of a run: the configured profiles, the user's
interactive answers, the cached credential record the validity check sees,
and the outcomes of each external call the run may make. -/
structure Env where
  okta_profiles : List String
  switch_answer : Int
  cached : Option CachedCred
  now : Int
  safety_margin : Int
  cookieLoadResult : Except CookieErr Unit
  cookieSaveResult : Except String Unit
  assertionResult : Except RunErr String
  roleResult : Except RunErr (String × String)
  duration : Int
  stsResult : Except RunErr StsToken

/-- The command-line options of `main` that the embedded fragment reads. -/
structure MainArgs where
  okta_profile : Option String
  profile : Option String
  verbose : Bool
  force : Bool
  cache : Bool
  refresh_role : Bool
  switch : Bool
  cookie_jar : Option String
  persistent_okta_session : Bool

/-- Function `okta_switch` (lines 14–25): sort the configured profiles; with
exactly one profile select it silently, otherwise print the enumerated menu,
read an integer answer `a`, and return `okta_profiles[a - 1]` (Python
indexing, so 0 and small negative answers wrap around and large ones raise
`IndexError`, surfacing first in the `logger.debug` f-string at line 23). The
integer is the already-parsed result of `int(input(...))`; a non-numeric
reply raises `ValueError` inside `int` before any indexing and is not
modelled further. A failed selection is `(menu, none)`: the prompt was shown
and the run aborted. -/
def okta_switch (okta_profiles : List String) (answer : Int) : List Event × Option String :=
let sorted := sortedStrings okta_profiles
if sorted.length = 1 then ([], sorted.get? 0)
else
  let menu := Event.printLine "Available Okta profiles:" ::
    (sorted.zip (List.range sorted.length)).map
      (fun p => Event.printLine (toString (p.2 + 1) ++ ": " ++ p.1))
  let sel := pyIndex sorted (answer - 1)
  (menu ++ sel.elim [] (fun p => [Event.logDebug ("Selected " ++ p)]), sel)

/-- The fixed cache-file path `"%s/.okta-credentials.cache" % home` of line
61, with the home directory abbreviated `~`. -/
def cacheFilePath : String := "~/.okta-credentials.cache"

/-- The export lines built by `console_output` (lines 72–76). -/
def exportLines (access_key_id secret_access_key session_token : String) : String :=
"export AWS_ACCESS_KEY_ID=" ++ access_key_id ++ "\n" ++
"export AWS_SECRET_ACCESS_KEY=" ++ secret_access_key ++ "\n" ++
"export AWS_SESSION_TOKEN=" ++ session_token

/-- Function `console_output` (lines 70–81): build the export lines, print them (with a
leading hint line) only when `verbose` is set, and return them. -/
def console_output (access_key_id secret_access_key session_token : String)
    (verbose : Bool) : List Event × String :=
let exports := exportLines access_key_id secret_access_key session_token
(if verbose then
  [Event.printLine "Use these to set your environment variables:", Event.printLine exports]
 else [], exports)

/-- Function `get_credentials` (lines 27–67). The constructions of `OktaAuthConfig`
and `OktaAuth` read local configuration only and contribute no claimed
effect. Then, in program order: `okta.get_assertion` (the IdP network flow),
`aws_auth.choose_aws_role`, `okta_auth_config.write_role_to_profile`,
`aws_auth.get_sts_token`, the expiry log line, and exactly one destination
branch on `aws_auth.profile` (the `profile` option stored by the `AwsAuth`
constructor). Uncaught exceptions from the oracle calls abort the run. -/
def get_credentials (env : Env) (okta_profile : String) (profile : Option String)
    (verbose : Bool) (cache : Bool) : List Event × Except RunErr Unit :=
match env.assertionResult with
| .error e => ([Event.oktaGetAssertion], .error e)
| .ok assertion =>
  match env.roleResult with
  | .error e => ([Event.oktaGetAssertion, Event.chooseAwsRole], .error e)
  | .ok (principal_arn, role_arn) =>
    let pre := [Event.oktaGetAssertion, Event.chooseAwsRole,
      Event.writeRoleToProfile okta_profile role_arn,
      Event.stsAssumeRole role_arn principal_arn assertion env.duration]
    match env.stsResult with
    | .error e => (pre, .error e)
    | .ok tok =>
      let pre := pre ++ [Event.logInfo ("Session token expires on: " ++ tok.expiration)]
      match profile with
      | none =>
        let printed := (console_output tok.accessKeyId tok.secretAccessKey
          tok.sessionToken verbose).1
        let exports := (console_output tok.accessKeyId tok.secretAccessKey
          tok.sessionToken verbose).2
        (pre ++ printed ++
          (if cache then [Event.writeCacheFile cacheFilePath exports] else []), .ok ())
      | some _ =>
        (pre ++ [Event.writeStsToProfile tok.accessKeyId tok.secretAccessKey
          tok.expiration tok.sessionToken], .ok ())

/-- The cookie-jar load of lines 166–174: on success a debug line records the
load; both `LoadError` and `OSError` are caught and reduced to a debug log
line, after which the run continues. -/
def cookieLoadEvents (file : String) : Except CookieErr Unit → List Event
  | .ok _ => [Event.cookieLoad file,
      Event.logDebug ("Loaded cookies from " ++ file)]
  | .error e => [Event.logDebug ("Error loading cookies from " ++ file ++ ": " ++ e.msg)]

/-- The cookie-jar save of lines 179–184: on success a debug line records the
save; an `OSError` is caught and logged as a warning. -/
def cookieSaveEvents (file : String) : Except String Unit → List Event
  | .ok _ => [Event.cookieSave file, Event.logDebug ("Saved cookies to " ++ file)]
  | .error m => [Event.logWarning ("Failed to save cookies to " ++ file ++ ": " ++ m)]

/-- The body of `main` from line 154 (after the version/config/logging
preamble, which has no claimed effect): default the Okta profile name, run
`okta_switch` when `--switch` was given (an `IndexError` there aborts the
run), construct `AwsAuth`, and refresh when `force or not
aws_auth.check_sts_token()` — Python short-circuit, so the check only runs
(and its event only appears) when `force` is false. The refresh branch logs
the force notice, loads the cookie jar (failures caught), calls
`get_credentials`, and saves the cookie jar (failures caught). The trailing
`awscli_args` subprocess hand-off at lines 186–187 is outside every claim and
not embedded. -/
def main (env : Env) (args : MainArgs) : List Event × Except RunErr Unit :=
let okta_profile₀ := args.okta_profile.getD "default"
let switchRun :=
  if args.switch then okta_switch env.okta_profiles env.switch_answer
  else ([], some okta_profile₀)
match switchRun.2 with
| none => (switchRun.1, .error RunErr.indexError)
| some okta_profile =>
  let checkRun : List Event × Bool :=
    if args.force then ([], true)
    else ([Event.checkStsToken],
      !(check_sts_token env.cached env.now env.safety_margin))
  let pre := switchRun.1 ++ checkRun.1
  if checkRun.2 then
    let infoEvts :=
      if args.force && args.profile.isSome then
        [Event.logInfo "Force option selected, getting new credentials anyway."]
      else []
    let loadEvts :=
      match args.cookie_jar with
      | none => []
      | some f => cookieLoadEvents f env.cookieLoadResult
    let gc := get_credentials env okta_profile args.profile args.verbose args.cache
    match gc.2 with
    | .error e => (pre ++ infoEvts ++ loadEvts ++ gc.1, .error e)
    | .ok _ =>
      let saveEvts :=
        match args.cookie_jar with
        | none => []
        | some f => cookieSaveEvents f env.cookieSaveResult
      (pre ++ infoEvts ++ loadEvts ++ gc.1 ++ saveEvts, .ok ())
  else (pre, .ok ())

/-- A RoleBinding parsed from the identity assertion: a
(principal identifier, role identifier) pair (spec §3). -/
structure RoleBinding where
  principal : String
  role : String
deriving DecidableEq, Repr

/-- Kernel-evaluable decidability for the by-role-identifier order on
role bindings. -/
def rbLeDec : DecidableRel (fun a b : RoleBinding => a.role ≤ b.role) :=
fun a b => strLeDec a.role b.role

instance : IsTotal RoleBinding (fun a b => a.role ≤ b.role) :=
⟨fun a b => le_total a.role b.role⟩

instance : IsTrans RoleBinding (fun a b => a.role ≤ b.role) :=
⟨fun _ _ _ => le_trans⟩

/-- Modelled from the spec: the order-stable presentation of role bindings
(`aws_auth.choose_aws_role` lives in `aws_auth.py`, which is not under
`src/`). Per §3, bindings are "sorted by role identifier" for reproducible
interactive prompts. -/
def sortedBindings (bs : List RoleBinding) : List RoleBinding :=
@List.insertionSort RoleBinding (fun a b => a.role ≤ b.role) rbLeDec bs

/-- Modelled from the spec: the interactive menu of
`aws_auth.choose_aws_role` (not under `src/`). Per §4.2, the sorted bindings
are "enumerated 1..N, presented for interactive selection". -/
def roleMenu (bs : List RoleBinding) : List (Nat × RoleBinding) :=
(List.range' 1 (sortedBindings bs).length).zip (sortedBindings bs)

/-- Modelled from the spec: parsing of the interactive numeric reply (Python
`int(input(...))` in the collaborator module, not under `src/`). A reply of
one or more decimal digits parses to the number; anything else is
non-numeric and raises `ValueError`. -/
def parseAnswer (s : String) : Option Nat :=
if s.toList ≠ [] ∧ s.toList.all Char.isDigit then
  some (s.toList.foldl (fun acc c => 10 * acc + (c.toNat - 48)) 0)
else none

/-- Modelled from the spec: the interactive-selection step of
`aws_auth.choose_aws_role` (not under `src/`). Per §4.2, "an out-of-range or
non-numeric answer is a fatal input error (no silent default)": a
non-numeric reply is a fatal `ValueError`, a numeric reply outside `1..N` is
a fatal selection error, and a numeric reply `n` in `1..N` picks the `n`-th
entry of the sorted menu. -/
def choose_role_interactive (bs : List RoleBinding) (answer : String) :
    Except RunErr RoleBinding :=
match parseAnswer answer with
| none => .error RunErr.valueError
| some n =>
  if h : 1 ≤ n ∧ n ≤ (sortedBindings bs).length then
    .ok ((sortedBindings bs).get ⟨n - 1, by omega⟩)
  else .error RunErr.roleError

/-- A concrete assertion with two role bindings, listed in unsorted order. -/
def rbPair : List RoleBinding :=
[⟨"arn:aws:iam::1:saml-provider/Okta", "arn:aws:iam::1:role/ReadOnly"⟩,
 ⟨"arn:aws:iam::1:saml-provider/Okta", "arn:aws:iam::1:role/Admin"⟩]

deriving instance DecidableEq for Except

/-- A concrete oracle environment in which every external call succeeds; the
cached credential record is well-formed and expires at time 100. -/
def envA : Env where
  okta_profiles := ["default"]
  switch_answer := 1
  cached := some ⟨true, 100⟩
  now := 0
  safety_margin := 10
  cookieLoadResult := .ok ()
  cookieSaveResult := .ok ()
  assertionResult := .ok "ASSERTION"
  roleResult := .ok ("arn:aws:iam::1:saml-provider/Okta", "arn:aws:iam::1:role/Admin")
  duration := 3600
  stsResult := .ok ⟨"AKIAEXAMPLE", "wJalrSECRET", "FQoGZXSESSION", "2026-10-12T01:00:00Z"⟩

/-- A concrete argument record: default profile, console destination, no
flags set. -/
def argsA : MainArgs where
  okta_profile := none
  profile := none
  verbose := false
  force := false
  cache := false
  refresh_role := false
  switch := false
  cookie_jar := none
  persistent_okta_session := false

/-! Helper lemmas, shared across the developments below. -/

/-- Sorting does not change the number of profiles. -/
theorem sortedStrings_length (ps : List String) :
    (sortedStrings ps).length = ps.length :=
@List.length_insertionSort String (fun a b => a ≤ b) strLeDec ps

/-- Python indexing with a small negative index wraps to the end. -/
theorem pyIndex_ofNeg {α : Type} (xs : List α) (i : Int) (h0 : i < 0)
    (h1 : -(xs.length : Int) ≤ i) :
    pyIndex xs i = xs.get? ((xs.length : Int) + i).toNat := by
  unfold pyIndex
  rw [if_neg (by omega), if_pos h1]

/-- Python indexing at or past the length raises `IndexError`. -/
theorem pyIndex_ge_length {α : Type} (xs : List α) (i : Int)
    (h : (xs.length : Int) ≤ i) : pyIndex xs i = none := by
  unfold pyIndex
  rw [if_pos (by omega), if_neg (by omega)]

/-- Python indexing below `-len` raises `IndexError`. -/
theorem pyIndex_lt_neg_length {α : Type} (xs : List α) (i : Int)
    (h : i < -(xs.length : Int)) : pyIndex xs i = none := by
  unfold pyIndex
  rw [if_neg (by omega), if_neg (by omega)]

/-- With at least two profiles the interactive branch runs and the selection
is Python indexing of the sorted list at `answer - 1`. -/
theorem okta_switch_snd (ps : List String) (a : Int)
    (h : (sortedStrings ps).length ≠ 1) :
    (okta_switch ps a).2 = pyIndex (sortedStrings ps) (a - 1) := by
  simp [okta_switch, h]

/-- Every event `okta_switch` can emit is a prompt line or a debug log: never
part of the credential flow, never a cookie-store access, never a network
call. -/
theorem okta_switch_trace_quiet (ps : List String) (a : Int) :
    ∀ e ∈ (okta_switch ps a).1,
      (e.isCredentialFlow || e.isCookieStore || e.isNetwork) = false := by
  intro e he
  unfold okta_switch at he
  by_cases h1 : (sortedStrings ps).length = 1
  · simp [h1] at he
  · simp only [h1, if_false] at he
    rcases hp : pyIndex (sortedStrings ps) (a - 1) with _ | p <;>
      rw [hp] at he <;>
        simp only [Option.elim, List.append_nil, List.mem_append, List.mem_cons,
          List.mem_map, List.mem_singleton, List.not_mem_nil, or_false] at he
    · rcases he with rfl | ⟨x, _, rfl⟩ <;> rfl
    · rcases he with (rfl | ⟨x, _, rfl⟩) | rfl <;> rfl

/-! Claim theorems. -/

/-- C8: a cached credential whose expiration timestamp is exactly
`now + safety_margin` fails the validity check (`check_sts_token` returns
`false`, so `main`'s `force or not check` test takes the refresh branch): the
boundary case favors refreshing over serving the cached credential. -/
theorem check_sts_token_boundary (wf : Bool) (now margin : Int) :
    check_sts_token (some ⟨wf, now + margin⟩) now margin = false := by
  simp [check_sts_token]

/-- C5: whenever `get_credentials` reaches role resolution and a role is
resolved, its role identifier is written back to the selected Okta profile's
persisted configuration (`write_role_to_profile`), whatever the credential
destination (`profile` is universally quantified) and whatever the STS call
later does (`env.stsResult` is unconstrained). -/
theorem get_credentials_persists_role (env : Env) (okta_profile : String)
    (profile : Option String) (verbose cache : Bool) (A p r : String)
    (ha : env.assertionResult = .ok A) (hr : env.roleResult = .ok (p, r)) :
    Event.writeRoleToProfile okta_profile r
      ∈ (get_credentials env okta_profile profile verbose cache).1 := by
  rcases hst : env.stsResult with e | tok <;>
    rcases profile with _ | pr <;>
      simp [get_credentials, ha, hr, hst, console_output]

/-- C5 witness: a successful concrete run with the console destination
records the resolved role against the profile. -/
theorem get_credentials_persists_role_witness :
    Event.writeRoleToProfile "default" "arn:aws:iam::1:role/Admin"
      ∈ (get_credentials envA "default" none false false).1 :=
get_credentials_persists_role envA "default" none false false
  "ASSERTION" "arn:aws:iam::1:saml-provider/Okta" "arn:aws:iam::1:role/Admin"
  (by decide) (by decide)

/-- C6: the credential's absolute expiration timestamp is the `Expiration`
field of the STS role-assumption response, for every possible response `tok`
and independently of `env.duration` and any clock (neither occurs in the
conclusion), and exactly that value is persisted to the named profile
record. -/
theorem get_credentials_expiry_from_provider (env : Env) (okta_profile : String)
    (pr : String) (verbose cache : Bool) (A p r : String) (tok : StsToken)
    (ha : env.assertionResult = .ok A) (hr : env.roleResult = .ok (p, r))
    (hst : env.stsResult = .ok tok) :
    Event.logInfo ("Session token expires on: " ++ tok.expiration)
      ∈ (get_credentials env okta_profile (some pr) verbose cache).1 ∧
    Event.writeStsToProfile tok.accessKeyId tok.secretAccessKey tok.expiration
        tok.sessionToken
      ∈ (get_credentials env okta_profile (some pr) verbose cache).1 := by
  simp [get_credentials, ha, hr, hst]

/-- C6 witness: the concrete successful run persists the provider-reported
expiration timestamp verbatim. -/
theorem get_credentials_expiry_from_provider_witness :
    Event.logInfo ("Session token expires on: " ++ "2026-10-12T01:00:00Z")
      ∈ (get_credentials envA "default" (some "dev") false false).1 ∧
    Event.writeStsToProfile "AKIAEXAMPLE" "wJalrSECRET" "2026-10-12T01:00:00Z"
        "FQoGZXSESSION"
      ∈ (get_credentials envA "default" (some "dev") false false).1 :=
get_credentials_expiry_from_provider envA "default" "dev" false false
  "ASSERTION" "arn:aws:iam::1:saml-provider/Okta" "arn:aws:iam::1:role/Admin"
  ⟨"AKIAEXAMPLE", "wJalrSECRET", "FQoGZXSESSION", "2026-10-12T01:00:00Z"⟩
  (by decide) (by decide) (by decide)

/-- C10: when the STS role-assumption call fails, the run aborts with that
error but the trace is exactly assertion fetch, role resolution, role write,
failed STS call — so the resolved role was persisted to the profile
configuration before the STS call, and the run is not atomic with respect to
the role cache on issuance error. -/
theorem get_credentials_role_write_precedes_sts (env : Env) (okta_profile : String)
    (profile : Option String) (verbose cache : Bool) (A p r : String) (e : RunErr)
    (ha : env.assertionResult = .ok A) (hr : env.roleResult = .ok (p, r))
    (hst : env.stsResult = .error e) :
    (get_credentials env okta_profile profile verbose cache).1 =
      [Event.oktaGetAssertion, Event.chooseAwsRole,
       Event.writeRoleToProfile okta_profile r,
       Event.stsAssumeRole r p A env.duration] ∧
    (get_credentials env okta_profile profile verbose cache).2 = .error e := by
  simp [get_credentials, ha, hr, hst]

/-- C10 witness: a concrete run whose STS call fails still carries the role
write, in position strictly before the STS attempt. -/
theorem get_credentials_role_write_precedes_sts_witness :
    (get_credentials { envA with stsResult := .error RunErr.stsError }
        "default" none false false).1 =
      [Event.oktaGetAssertion, Event.chooseAwsRole,
       Event.writeRoleToProfile "default" "arn:aws:iam::1:role/Admin",
       Event.stsAssumeRole "arn:aws:iam::1:role/Admin"
         "arn:aws:iam::1:saml-provider/Okta" "ASSERTION" 3600] ∧
    (get_credentials { envA with stsResult := .error RunErr.stsError }
        "default" none false false).2 = .error RunErr.stsError :=
get_credentials_role_write_precedes_sts
  { envA with stsResult := .error RunErr.stsError } "default" none false false
  "ASSERTION" "arn:aws:iam::1:saml-provider/Okta" "arn:aws:iam::1:role/Admin"
  RunErr.stsError (by decide) (by decide) (by decide)

/-- The IdP interaction is always the first effect of `get_credentials`. -/
theorem get_credentials_assertion_first (env : Env) (okta_profile : String)
    (profile : Option String) (verbose cache : Bool) :
    Event.oktaGetAssertion ∈ (get_credentials env okta_profile profile verbose cache).1 := by
  rcases ha : env.assertionResult with e | A
  · simp [get_credentials, ha]
  · rcases hr : env.roleResult with e | ⟨p, r⟩
    · simp [get_credentials, ha, hr]
    · rcases hst : env.stsResult with e | tok <;> rcases profile with _ | pr <;>
        simp [get_credentials, ha, hr, hst, console_output]

/-- When all three oracle calls succeed, `get_credentials` succeeds. -/
theorem get_credentials_ok (env : Env) (okta_profile : String)
    (profile : Option String) (verbose cache : Bool) (A p r : String) (tok : StsToken)
    (ha : env.assertionResult = .ok A) (hr : env.roleResult = .ok (p, r))
    (hst : env.stsResult = .ok tok) :
    (get_credentials env okta_profile profile verbose cache).2 = .ok () := by
  rcases profile with _ | pr <;> simp [get_credentials, ha, hr, hst]

/-- Trace of `okta_switch` in `all` form: only quiet (prompt/log) events. -/
theorem okta_switch_all_quiet (ps : List String) (a : Int) :
    ((okta_switch ps a).1.all
      fun e => !(e.isCredentialFlow || e.isCookieStore || e.isNetwork)) = true :=
List.all_eq_true.mpr fun e he => by rw [okta_switch_trace_quiet ps a e he]; rfl

/-- C2 counterexample: a successful console-destination run with `verbose`
and `cache` both off emits the credentials nowhere — no export line is
printed, no cache file is written, and no profile record is written — so it
is not the case that exactly one of the two destinations receives the
credentials, and in particular the claimed unconditional rendering of export
lines to the console does not happen. -/
theorem get_credentials_console_silent_cex :
    ((get_credentials envA "default" none false false).1.all
        fun e => !(e.isPrintLine || e.isWriteCacheFile || e.isWriteStsToProfile)) = true ∧
    (get_credentials envA "default" none false false).2 = .ok () := by
  decide

/-- C2 amended: for every successful issuance run, at most one destination
receives the credentials. With a named profile, the profile record is
written and nothing is printed or cached. With no named profile, the export
lines are printed to the console exactly when `verbose` is set, and they are
written to the fixed path `~/.okta-credentials.cache` exactly when the cache
flag is set; the profile record is never written. -/
theorem get_credentials_destinations (env : Env) (okta_profile : String)
    (profile : Option String) (verbose cache : Bool) (A p r : String) (tok : StsToken)
    (ha : env.assertionResult = .ok A) (hr : env.roleResult = .ok (p, r))
    (hst : env.stsResult = .ok tok) :
    (get_credentials env okta_profile profile verbose cache).2 = .ok () ∧
    (profile.isSome = true →
      Event.writeStsToProfile tok.accessKeyId tok.secretAccessKey tok.expiration
          tok.sessionToken
        ∈ (get_credentials env okta_profile profile verbose cache).1 ∧
      ((get_credentials env okta_profile profile verbose cache).1.all
          fun e => !(e.isPrintLine || e.isWriteCacheFile)) = true) ∧
    (profile = none →
      ((get_credentials env okta_profile profile verbose cache).1.all
          fun e => ! e.isWriteStsToProfile) = true ∧
      (Event.printLine (exportLines tok.accessKeyId tok.secretAccessKey tok.sessionToken)
          ∈ (get_credentials env okta_profile profile verbose cache).1 ↔ verbose = true) ∧
      (Event.writeCacheFile cacheFilePath
            (exportLines tok.accessKeyId tok.secretAccessKey tok.sessionToken)
          ∈ (get_credentials env okta_profile profile verbose cache).1 ↔ cache = true)) := by
  rcases profile with _ | pr
  · rcases verbose <;> rcases cache <;>
      simp [get_credentials, ha, hr, hst, console_output, Event.isPrintLine,
        Event.isWriteCacheFile, Event.isWriteStsToProfile]
  · simp [get_credentials, ha, hr, hst, Event.isPrintLine,
      Event.isWriteCacheFile, Event.isWriteStsToProfile]

/-- C2 amended witness: the concrete console run with `verbose` and `cache`
both on succeeds, prints the export lines, and mirrors them to the fixed
cache path. -/
theorem get_credentials_destinations_witness :
    (get_credentials envA "default" none true true).2 = .ok () ∧
    Event.printLine (exportLines "AKIAEXAMPLE" "wJalrSECRET" "FQoGZXSESSION")
      ∈ (get_credentials envA "default" none true true).1 ∧
    Event.writeCacheFile cacheFilePath
        (exportLines "AKIAEXAMPLE" "wJalrSECRET" "FQoGZXSESSION")
      ∈ (get_credentials envA "default" none true true).1 := by
  have h := get_credentials_destinations envA "default" none true true
    "ASSERTION" "arn:aws:iam::1:saml-provider/Okta" "arn:aws:iam::1:role/Admin"
    ⟨"AKIAEXAMPLE", "wJalrSECRET", "FQoGZXSESSION", "2026-10-12T01:00:00Z"⟩
    (by decide) (by decide) (by decide)
  exact ⟨h.1, ((h.2.2 rfl).2.1).mpr rfl, ((h.2.2 rfl).2.2).mpr rfl⟩

/-- C1: when `force` is false and the cached-token validity check succeeds
(and, if `--switch` was given, the interactive profile selection does not
itself crash), the run succeeds and its whole trace is free of
credential-flow events (no IdP authentication, no role resolution, no role
or credential write), free of session-store events (the cookie jar is
neither loaded nor saved), and free of network events: `get_credentials` is
never invoked and the cached credential record is left to stand. -/
theorem main_cached_credentials_short_circuit (env : Env) (args : MainArgs)
    (hf : args.force = false)
    (hv : check_sts_token env.cached env.now env.safety_margin = true)
    (hsw : args.switch = true →
      ((okta_switch env.okta_profiles env.switch_answer).2).isSome = true) :
    (main env args).2 = .ok () ∧
    ((main env args).1.all
        fun e => !(e.isCredentialFlow || e.isCookieStore || e.isNetwork)) = true := by
  rcases Bool.eq_false_or_eq_true args.switch with hs | hs
  · obtain ⟨pname, hp⟩ := Option.isSome_iff_exists.mp (hsw hs)
    have h : main env args =
        ((okta_switch env.okta_profiles env.switch_answer).1 ++ [Event.checkStsToken],
          .ok ()) := by
      simp [main, hs, hf, hv, hp]
    rw [h]
    refine ⟨rfl, ?_⟩
    rw [List.all_append, okta_switch_all_quiet]
    rfl
  · have h : main env args = ([Event.checkStsToken], .ok ()) := by
      simp [main, hs, hf, hv]
    rw [h]
    exact ⟨rfl, rfl⟩

/-- C1 witness: with a valid cached credential (now 0, expiry 100, margin 10)
and no `force`, the concrete run returns immediately with only the validity
check in its trace. -/
theorem main_cached_credentials_short_circuit_witness :
    (main envA argsA).2 = .ok () ∧
    ((main envA argsA).1.all
        fun e => !(e.isCredentialFlow || e.isCookieStore || e.isNetwork)) = true :=
main_cached_credentials_short_circuit envA argsA (by decide) (by decide) (by decide)

/-- C3: when the cookie-jar file load fails — `LoadError` for a corrupt file
or `OSError` for a missing/unreadable one — in a run that refreshes
(`force`, or an invalid cached token), the failure is only logged and the
run still proceeds into `get_credentials`, whose IdP authentication attempt
appears in the trace. -/
theorem main_cookie_load_failure_recovered (env : Env) (args : MainArgs)
    (f : String) (ce : CookieErr)
    (hj : args.cookie_jar = some f)
    (hl : env.cookieLoadResult = .error ce)
    (href : args.force = true ∨
      check_sts_token env.cached env.now env.safety_margin = false)
    (hsw : args.switch = true →
      ((okta_switch env.okta_profiles env.switch_answer).2).isSome = true) :
    Event.logDebug ("Error loading cookies from " ++ f ++ ": " ++ ce.msg)
      ∈ (main env args).1 ∧
    Event.oktaGetAssertion ∈ (main env args).1 := by
  rcases Bool.eq_false_or_eq_true args.switch with hs | hs
  · obtain ⟨pname, hp⟩ := Option.isSome_iff_exists.mp (hsw hs)
    rcases Bool.eq_false_or_eq_true args.force with hforce | hforce
    · rcases hgc : (get_credentials env pname
          args.profile args.verbose args.cache).2 with e | u <;>
        simp [main, hs, hforce, hj, hl, hp, hgc, cookieLoadEvents,
          get_credentials_assertion_first env pname
            args.profile args.verbose args.cache]
    · rcases href with hft | hv
      · rw [hforce] at hft; cases hft
      · rcases hgc : (get_credentials env pname
            args.profile args.verbose args.cache).2 with e | u <;>
          simp [main, hs, hforce, hv, hj, hl, hp, hgc, cookieLoadEvents,
            get_credentials_assertion_first env pname
              args.profile args.verbose args.cache]
  · rcases Bool.eq_false_or_eq_true args.force with hforce | hforce
    · rcases hgc : (get_credentials env (args.okta_profile.getD "default")
          args.profile args.verbose args.cache).2 with e | u <;>
        simp [main, hs, hforce, hj, hl, hgc, cookieLoadEvents,
          get_credentials_assertion_first env (args.okta_profile.getD "default")
            args.profile args.verbose args.cache]
    · rcases href with hft | hv
      · rw [hforce] at hft; cases hft
      · rcases hgc : (get_credentials env (args.okta_profile.getD "default")
            args.profile args.verbose args.cache).2 with e | u <;>
          simp [main, hs, hforce, hv, hj, hl, hgc, cookieLoadEvents,
            get_credentials_assertion_first env (args.okta_profile.getD "default")
              args.profile args.verbose args.cache]

/-- C3 witness: a concrete forced run whose cookie jar is corrupt logs the
load error and still performs the IdP authentication. -/
theorem main_cookie_load_failure_recovered_witness :
    Event.logDebug ("Error loading cookies from " ++ "/home/u/.okta-cookies"
        ++ ": " ++ (CookieErr.loadError "invalid LWP format").msg)
      ∈ (main { envA with cookieLoadResult := .error (.loadError "invalid LWP format") }
          { argsA with force := true, cookie_jar := some "/home/u/.okta-cookies" }).1 ∧
    Event.oktaGetAssertion
      ∈ (main { envA with cookieLoadResult := .error (.loadError "invalid LWP format") }
          { argsA with force := true, cookie_jar := some "/home/u/.okta-cookies" }).1 :=
main_cookie_load_failure_recovered
  { envA with cookieLoadResult := .error (.loadError "invalid LWP format") }
  { argsA with force := true, cookie_jar := some "/home/u/.okta-cookies" }
  "/home/u/.okta-cookies" (.loadError "invalid LWP format")
  (by decide) (by decide) (Or.inl (by decide)) (by decide)

/-- C4: when credential issuance succeeds but saving the cookie jar
afterwards fails with an `OSError`, the failure is logged as a warning and
the run still ends in success: the emitted credentials stand and no
exception escapes. -/
theorem main_cookie_save_failure_nonfatal (env : Env) (args : MainArgs)
    (f m : String) (A p r : String) (tok : StsToken)
    (hj : args.cookie_jar = some f)
    (hsave : env.cookieSaveResult = .error m)
    (ha : env.assertionResult = .ok A) (hr : env.roleResult = .ok (p, r))
    (hst : env.stsResult = .ok tok)
    (href : args.force = true ∨
      check_sts_token env.cached env.now env.safety_margin = false)
    (hsw : args.switch = true →
      ((okta_switch env.okta_profiles env.switch_answer).2).isSome = true) :
    (main env args).2 = .ok () ∧
    Event.logWarning ("Failed to save cookies to " ++ f ++ ": " ++ m)
      ∈ (main env args).1 := by
  rcases Bool.eq_false_or_eq_true args.switch with hs | hs
  · obtain ⟨pname, hp⟩ := Option.isSome_iff_exists.mp (hsw hs)
    have hgc := get_credentials_ok env pname
      args.profile args.verbose args.cache A p r tok ha hr hst
    rcases Bool.eq_false_or_eq_true args.force with hforce | hforce
    · simp [main, hs, hforce, hj, hsave, hp, hgc, cookieSaveEvents]
    · rcases href with hft | hv
      · rw [hforce] at hft; cases hft
      · simp [main, hs, hforce, hv, hj, hsave, hp, hgc, cookieSaveEvents]
  · have hgc := get_credentials_ok env (args.okta_profile.getD "default")
      args.profile args.verbose args.cache A p r tok ha hr hst
    rcases Bool.eq_false_or_eq_true args.force with hforce | hforce
    · simp [main, hs, hforce, hj, hsave, hgc, cookieSaveEvents]
    · rcases href with hft | hv
      · rw [hforce] at hft; cases hft
      · simp [main, hs, hforce, hv, hj, hsave, hgc, cookieSaveEvents]

/-- C4 witness: a concrete forced run that issues credentials and then fails
to write the cookie jar still succeeds and carries the warning. -/
theorem main_cookie_save_failure_nonfatal_witness :
    (main { envA with cookieSaveResult := .error "Permission denied" }
        { argsA with force := true, cookie_jar := some "/home/u/.okta-cookies" }).2
      = .ok () ∧
    Event.logWarning ("Failed to save cookies to " ++ "/home/u/.okta-cookies"
        ++ ": " ++ "Permission denied")
      ∈ (main { envA with cookieSaveResult := .error "Permission denied" }
          { argsA with force := true, cookie_jar := some "/home/u/.okta-cookies" }).1 :=
main_cookie_save_failure_nonfatal
  { envA with cookieSaveResult := .error "Permission denied" }
  { argsA with force := true, cookie_jar := some "/home/u/.okta-cookies" }
  "/home/u/.okta-cookies" "Permission denied"
  "ASSERTION" "arn:aws:iam::1:saml-provider/Okta" "arn:aws:iam::1:role/Admin"
  ⟨"AKIAEXAMPLE", "wJalrSECRET", "FQoGZXSESSION", "2026-10-12T01:00:00Z"⟩
  (by decide) (by decide) (by decide) (by decide) (by decide)
  (Or.inl (by decide)) (by decide)

/-- C7: with more than one role binding, the interactive menu presents the
bindings sorted by role identifier and enumerated `1..N`, and an answer that
is non-numeric, or numeric but outside `1..N`, is a fatal input error — no
silent default selection. (Modelled from the spec: `aws_auth.choose_aws_role`
is not under `src/`.) -/
theorem choose_role_interactive_spec (bs : List RoleBinding) (answer : String)
    (hN : 2 ≤ bs.length) :
    (roleMenu bs).map Prod.fst = List.range' 1 bs.length ∧
    (roleMenu bs).map Prod.snd = sortedBindings bs ∧
    List.Sorted (fun a b => a.role ≤ b.role) (sortedBindings bs) ∧
    (parseAnswer answer = none →
      choose_role_interactive bs answer = .error RunErr.valueError) ∧
    (∀ n, parseAnswer answer = some n → ¬(1 ≤ n ∧ n ≤ bs.length) →
      choose_role_interactive bs answer = .error RunErr.roleError) := by
  have hlen : (sortedBindings bs).length = bs.length :=
    @List.length_insertionSort RoleBinding (fun a b => a.role ≤ b.role) rbLeDec bs
  refine ⟨?_, ?_, ?_, ?_, ?_⟩
  · rw [roleMenu, List.map_fst_zip _ _ (by simp [List.length_range']), hlen]
  · rw [roleMenu, List.map_snd_zip _ _ (by simp [List.length_range'])]
  · exact @List.sorted_insertionSort RoleBinding (fun a b => a.role ≤ b.role)
      rbLeDec inferInstance inferInstance bs
  · intro h
    unfold choose_role_interactive
    rw [h]
  · intro n hn hout
    have hout' : ¬(1 ≤ n ∧ n ≤ (sortedBindings bs).length) := by
      rw [hlen]; exact hout
    unfold choose_role_interactive
    rw [hn]
    exact dif_neg hout'

/-- C7 witness: for a concrete two-binding assertion, the menu is enumerated
`1, 2`, the out-of-range answer `3` is a fatal selection error, and the
non-numeric answer `two` is a fatal parse error. -/
theorem choose_role_interactive_spec_witness :
    (roleMenu rbPair).map Prod.fst = [1, 2] ∧
    choose_role_interactive rbPair "3" = .error RunErr.roleError ∧
    choose_role_interactive rbPair "two" = .error RunErr.valueError := by
  have h := choose_role_interactive_spec rbPair "3" (by decide)
  have h2 := choose_role_interactive_spec rbPair "two" (by decide)
  refine ⟨?_, ?_, ?_⟩
  · rw [h.1]; decide
  · exact h.2.2.2.2 3 (by decide) (by decide)
  · exact h2.2.2.2.1 (by decide)

/-- C9 counterexample: with the two profiles `["b", "a"]`, the answer `-2`
has absolute value at most the number of profiles, yet the selection does
not silently pick a profile — it raises an uncaught `IndexError`
(`okta_profiles[-3]` on a two-element list), refuting the claim that every
negative answer with absolute value at most the number of profiles silently
selects from the end. -/
theorem okta_switch_negative_answer_cex :
    (-2 : Int) < 0 ∧ (-2 : Int).natAbs ≤ (["b", "a"] : List String).length ∧
    (okta_switch ["b", "a"] (-2)).2 = none := by decide

/-- C9 amended: with more than one configured profile, an answer of 0, or
any negative answer whose absolute value is strictly less than the number of
profiles, silently selects the profile at position `N + answer - 1` of the
sorted list (counting from the end) instead of failing; an answer greater
than the number of profiles — or at most its negation — raises an uncaught
index error. -/
theorem okta_switch_answer_indexing (ps : List String) (a : Int)
    (hN : 2 ≤ ps.length) :
    ((a = 0 ∨ (a < 0 ∧ a.natAbs < ps.length)) →
      (okta_switch ps a).2
          = (sortedStrings ps).get? ((ps.length : Int) + a - 1).toNat ∧
      ((okta_switch ps a).2).isSome = true) ∧
    (((ps.length : Int) < a ∨ a ≤ -(ps.length : Int)) →
      (okta_switch ps a).2 = none) := by
  have hlen := sortedStrings_length ps
  have hne : (sortedStrings ps).length ≠ 1 := by omega
  have hsnd := okta_switch_snd ps a hne
  constructor
  · intro h
    have h0 : a - 1 < 0 := by rcases h with rfl | ⟨hneg, habs⟩ <;> omega
    have h1 : -(((sortedStrings ps).length : Int)) ≤ a - 1 := by
      rcases h with rfl | ⟨hneg, habs⟩ <;> omega
    have heq : (((sortedStrings ps).length : Int) + (a - 1)).toNat
        = ((ps.length : Int) + a - 1).toNat := by omega
    have hidx : ((ps.length : Int) + a - 1).toNat < (sortedStrings ps).length := by
      rcases h with rfl | ⟨hneg, habs⟩ <;> omega
    rw [hsnd, pyIndex_ofNeg _ _ h0 h1, heq]
    exact ⟨rfl, by rw [List.get?_eq_get hidx]; rfl⟩
  · intro h
    rcases h with h | h
    · rw [hsnd]; exact pyIndex_ge_length _ _ (by omega)
    · rw [hsnd]; exact pyIndex_lt_neg_length _ _ (by omega)

/-- C9 amended witness: with profiles `["b", "a"]` (sorted: `["a", "b"]`),
the answer 0 silently selects the last profile `"b"`, and the answer `-3`
(absolute value exceeding the profile count) is an uncaught index error. -/
theorem okta_switch_answer_indexing_witness :
    (okta_switch ["b", "a"] 0).2 = some "b" ∧
    (okta_switch ["b", "a"] (-3)).2 = none := by
  have h := okta_switch_answer_indexing ["b", "a"] 0 (by decide)
  have h2 := okta_switch_answer_indexing ["b", "a"] (-3) (by decide)
  refine ⟨?_, ?_⟩
  · rw [(h.1 (Or.inl rfl)).1]; decide
  · exact h2.2 (Or.inr (by decide))

end OktaAwsCli
